import Mathlib

/-!
Shallow embedding of `hostStats.go` (package main of BilboTheGreedy/hostStats).

The program reads a JSON configuration naming vCenter endpoints, writes a CSV
header, dispatches one worker goroutine per endpoint, collects one `hostStat`
record per physical host of each endpoint, waits for one completion signal per
endpoint, and then appends each endpoint's rows to the CSV in configuration
order.

Modelling conventions:
* Go machine integers (`int16`, `int32`, `int64`) are modelled as `Int`.  All
  arithmetic the source performs (`CpuMhz * NumCpuCores`, the memory
  subtraction) is done in Go `int64` on operands bounded by `int32`/`int16`
  ranges, so it can never wrap; the `Int` model therefore agrees with the Go
  semantics on every representable input.
* The external govmomi library is represented by behaviour parameters: each
  endpoint's `VCenterEnv` records whether `govmomi.NewClient`,
  `CreateContainerView` and `Retrieve` succeed, and carries the host data the
  endpoint would report.  `units.ByteSize`'s `String` formatter (a third-party
  pretty-printer the spec leaves unspecified beyond "one consistent rendering
  rule") is a parameter `bs : Int → String` of the flattening.
* `log.Fatal` (used by `Init` on every collection error) terminates the whole
  process with exit status 1; this is modelled by the `RunOutcome.aborted`
  result, which carries the file content at the moment of death (only the
  header written by `newCsv`).
* Effects that the claims mention (done-channel signals, log lines, whether
  `Init`/`Disconnect` were invoked) are reified as fields of `JobOutcome`.
-/

namespace HostStats

/-- The `hostStat` struct of `hostStats.go:28`.  Lean field order is the Go
declaration order, which is the order runtime reflection reports in
`Headers`.  Go types: `NumCpu*` are `int16`, `MemorySize` is `int32`,
the remaining numeric fields are `int64`. -/
structure hostStat where
  Cluster : String
  Host : String
  Version : String
  Build : String
  Vendor : String
  Model : String
  NumCpuPkgs : Int
  NumCpuCores : Int
  NumCpuThreads : Int
  CpuModel : String
  TotalCPU : Int
  FreeCPU : Int
  OverallMemoryUsage : Int
  MemorySize : Int
  FreeMemory : Int
deriving Repr, DecidableEq

/-- `hostStat.Headers` (`hostStats.go:46`): reflection lists the struct's
field names in declaration order. -/
def Headers : List String :=
  ["Cluster", "Host", "Version", "Build", "Vendor", "Model",
   "NumCpuPkgs", "NumCpuCores", "NumCpuThreads", "CpuModel",
   "TotalCPU", "FreeCPU", "OverallMemoryUsage", "MemorySize", "FreeMemory"]

/-- `strconv.FormatInt(n, 10)`: base-10 rendering of a signed integer. -/
def formatInt (n : Int) : String := toString n

/-- `hostStat.Slice` (`hostStats.go:56`).  `bs` models
`units.ByteSize.String`, the byte-count formatter of the govmomi `units`
package.  Note the source renders `MemorySize` (scaled by `1024*1024`)
*before* `OverallMemoryUsage`, the opposite of the struct's declaration
order used by `Headers`. -/
def Slice (bs : Int → String) (r : hostStat) : List String :=
  [r.Cluster, r.Host, r.Version, r.Build, r.Vendor, r.Model,
   formatInt r.NumCpuPkgs, formatInt r.NumCpuCores, formatInt r.NumCpuThreads,
   r.CpuModel, formatInt r.TotalCPU, formatInt r.FreeCPU,
   bs (r.MemorySize * 1024 * 1024), bs r.OverallMemoryUsage, bs r.FreeMemory]

/-- The flattening the spec's §4.1 contract describes, for comparison with
`Slice`: the value at position `i` is the rendering of the field that
`Headers` names at position `i` (each field keeping its rendering rule from
the source), i.e. values in the struct's declared field order. -/
def sliceInHeaderOrder (bs : Int → String) (r : hostStat) : List String :=
  [r.Cluster, r.Host, r.Version, r.Build, r.Vendor, r.Model,
   formatInt r.NumCpuPkgs, formatInt r.NumCpuCores, formatInt r.NumCpuThreads,
   r.CpuModel, formatInt r.TotalCPU, formatInt r.FreeCPU,
   bs r.OverallMemoryUsage, bs (r.MemorySize * 1024 * 1024), bs r.FreeMemory]

/-- The data govmomi reports for one `mo.HostSystem` (plus the cluster-name
lookup for its parent).  `clusterName = none` models `pc.RetrieveOne`
failing for this host (`hostStats.go:237`), which the source answers with
`log.Fatal`.  Go types: `cpuMhz`, `overallCpuUsage` and
`overallMemoryUsage` are `int32` (the latter in megabytes), `numCpu*` are
`int16`, `memorySize` is `int64` (bytes). -/
structure HostSystemData where
  clusterName : Option String
  hostName : String
  build : String
  version : String
  model : String
  vendor : String
  cpuMhz : Int
  numCpuPkgs : Int
  numCpuCores : Int
  numCpuThreads : Int
  cpuModel : String
  overallCpuUsage : Int
  memorySize : Int
  overallMemoryUsage : Int
deriving Repr, DecidableEq

/-- The record construction of `Init`'s per-host loop body
(`hostStats.go:241-260`), given the resolved cluster name.  The source
assigns `hs.Summary.QuickStats.OverallMemoryUsage` to the `MemorySize`
field and `hs.Summary.Hardware.MemorySize` to the `OverallMemoryUsage`
field (lines 257-258), exactly as written there. -/
def mkHostStat (clusterName : String) (hs : HostSystemData) : hostStat :=
  let totalCPU := hs.cpuMhz * hs.numCpuCores
  let freeCPU := totalCPU - hs.overallCpuUsage
  let freeMemory := hs.memorySize - hs.overallMemoryUsage * 1024 * 1024
  { Cluster := clusterName
    Host := hs.hostName
    Build := hs.build
    Version := hs.version
    Model := hs.model
    Vendor := hs.vendor
    TotalCPU := totalCPU
    FreeCPU := freeCPU
    NumCpuPkgs := hs.numCpuPkgs
    NumCpuCores := hs.numCpuCores
    NumCpuThreads := hs.numCpuThreads
    CpuModel := hs.cpuModel
    MemorySize := hs.overallMemoryUsage
    OverallMemoryUsage := hs.memorySize
    FreeMemory := freeMemory }

/-- A `VCenter` as the `Disconnect` method sees it: identity plus the
session handle `client`, which is `none` until `Connect` succeeds
(`hostStats.go:85-92`). -/
structure VCenterSession where
  Hostname : String
  Worker : Nat
  client : Option Unit
deriving Repr, DecidableEq

/-- `VCenter.Disconnect` (`hostStats.go:194`): if a client handle exists,
attempt `Logout` (whose outcome is the environment parameter
`logoutErr`); otherwise do nothing.  Result: (whether a logout was
attempted, the returned error). -/
def Disconnect (logoutErr : Option String) (v : VCenterSession) :
    Bool × Option String :=
  match v.client with
  | none => (false, none)
  | some _ =>
    match logoutErr with
    | some e => (true, some e)
    | none => (true, none)

/-- One endpoint of the configuration together with the behaviour of the
external govmomi calls made for it.  `connectOk` is whether
`url.Parse`+`govmomi.NewClient` succeed in `Connect` (`hostStats.go:169`),
`viewOk` whether `CreateContainerView` succeeds (`:219`), `retrieveOk`
whether `v.Retrieve` succeeds (`:228`), `hosts` the host systems the
endpoint reports, and `logoutErr` the outcome of `client.Logout`. -/
structure VCenterEnv where
  Hostname : String
  Username : String
  Password : String
  connectOk : Bool
  viewOk : Bool
  retrieveOk : Bool
  hosts : List HostSystemData
  logoutErr : Option String
deriving Repr, DecidableEq

/-- `Configuration` (`hostStats.go:79`): output path plus endpoint list. -/
structure Configuration where
  Outpath : String
  VCenters : List VCenterEnv
deriving Repr, DecidableEq

/-- `VCenter.Connect` (`hostStats.go:169`): on success the session handle
(`vcenter.client`) is established, on failure it stays absent. -/
def Connect (v : VCenterEnv) : Option Unit :=
  if v.connectOk then some () else none

/-- The result of `VCenter.Init` (`hostStats.go:209`).  `fatal` models
`log.Fatal`, which terminates the entire process with exit status 1; the
source takes that path on a `CreateContainerView` error, a `Retrieve`
error, or any per-host cluster-name `RetrieveOne` error, so `Init` never
returns a non-nil error. -/
inductive InitResult
  | fatal
  | ok (rows : List (List String))
deriving Repr, DecidableEq

/-- The per-host loop of `Init` (`hostStats.go:235-263`): resolve the
cluster name of each host in order and append `Slice` of the built record;
`none` models the `log.Fatal` taken when a cluster-name lookup fails. -/
def collectHosts (bs : Int → String) : List HostSystemData → Option (List (List String))
  | [] => some []
  | hs :: rest =>
    match hs.clusterName with
    | none => none
    | some c =>
      match collectHosts bs rest with
      | none => none
      | some rows => some (Slice bs (mkHostStat c hs) :: rows)

/-- `VCenter.Init` (`hostStats.go:209`): create the container view,
retrieve the host systems, then run the per-host loop; every failure is a
`log.Fatal`. -/
def Init (bs : Int → String) (v : VCenterEnv) : InitResult :=
  if v.viewOk then
    if v.retrieveOk then
      match collectHosts bs v.hosts with
      | some rows => InitResult.ok rows
      | none => InitResult.fatal
    else InitResult.fatal
  else InitResult.fatal

/-- Log lines the worker prints, reified with the data they carry.  The
identity logged is the endpoint's `Hostname`. -/
inductive LogEvent
  | received (worker : Nat) (hostname : String)
  | connectFailed (worker : Nat) (hostname : String)
  | initDone (worker : Nat) (hostname : String)
deriving Repr, DecidableEq

/-- Everything observable about one endpoint job after the worker loop body
(`hostStats.go:148-164`) has run for it: the rows accumulated in
`vcenter.Data`, how many `done <- true` signals were sent for the job,
whether the job died in `log.Fatal` (killing the process), whether
`vcenter.Init` was invoked (the Collecting phase), whether
`vcenter.Disconnect` was invoked, and the log lines printed. -/
structure JobOutcome where
  data : List (List String)
  doneSignals : Nat
  fatal : Bool
  initCalled : Bool
  disconnected : Bool
  logs : List LogEvent
deriving Repr, DecidableEq

/-- The worker loop body for one job (`hostStats.go:148-164`): on a
`Connect` error, log with the endpoint's hostname, signal done, and skip to
the next job (no `Init`, no `Disconnect`); otherwise run `Init` — whose
failures are `log.Fatal`, so no done signal is ever sent for such a job —
and on success call `Disconnect` (result ignored) and signal done. -/
def workerJob (bs : Int → String) (id : Nat) (v : VCenterEnv) : JobOutcome :=
  match Connect v with
  | none =>
    { data := []
      doneSignals := 1
      fatal := false
      initCalled := false
      disconnected := false
      logs := [LogEvent.received id v.Hostname,
               LogEvent.connectFailed id v.Hostname] }
  | some client =>
    match Init bs v with
    | InitResult.fatal =>
      { data := []
        doneSignals := 0
        fatal := true
        initCalled := true
        disconnected := false
        logs := [LogEvent.received id v.Hostname] }
    | InitResult.ok rows =>
      let _ := Disconnect v.logoutErr
        { Hostname := v.Hostname, Worker := id, client := some client }
      { data := rows
        doneSignals := 1
        fatal := false
        initCalled := true
        disconnected := true
        logs := [LogEvent.received id v.Hostname,
                 LogEvent.initDone id v.Hostname] }

/-- The rows an endpoint contributes (`vcenter.Data` after its job ran);
independent of which worker goroutine processed the job. -/
def dataOf (bs : Int → String) (v : VCenterEnv) : List (List String) :=
  (workerJob bs 0 v).data

/-- Whether an endpoint's job hits a `log.Fatal` (a collection error after
a successful connect). -/
def jobFatal (bs : Int → String) (v : VCenterEnv) : Bool :=
  (workerJob bs 0 v).fatal

/-- All jobs processed, worker `i` taking the `i`-th endpoint (`main`
assigns `vcenter.Worker = i` and launches one goroutine per endpoint,
`hostStats.go:124-127`). -/
def processAll (bs : Int → String) : Nat → List VCenterEnv → List JobOutcome
  | _, [] => []
  | i, v :: rest => workerJob bs i v :: processAll bs (i + 1) rest

/-- `csvExport` (`hostStats.go:285`): open the destination in append mode
(`openOk` is the outcome), then write the rows one by one; a failing write
(`failAt = some k`: the `k`-th row write of this call fails) returns the
error at once, leaving the rows already written in place.  Result: (file
content after the call, returned error). -/
def csvExport (data file : List (List String)) (openOk : Bool)
    (failAt : Option Nat) : List (List String) × Option String :=
  if openOk then
    match failAt with
    | none => (file ++ data, none)
    | some k =>
      if k < data.length then (file ++ data.take k, some "write error")
      else (file ++ data, none)
  else (file, some "open error")

/-- The behaviour of the external world for one whole run: the byte-size
renderer, the configuration-read outcome (`none` models `os.Open` or
`Decode` failing, after which `main` keeps the zero-value
`Configuration`), whether `os.Create` in `newCsv` succeeds, and the
open/write outcomes of each per-endpoint `csvExport` call. -/
structure MainEnv where
  bs : Int → String
  configRead : Option Configuration
  createOk : Bool
  exportOpenOk : Nat → Bool
  exportFailAt : Nat → Option Nat

/-- The export loop of `main` (`hostStats.go:140-143`): iterate the
endpoints in configuration order and append each one's `Data` via
`csvExport`, whose returned error `main` discards. -/
def exportPhase (env : MainEnv) : Nat → List (List String) → List VCenterEnv →
    List (List String)
  | _, file, [] => file
  | i, file, v :: rest =>
    exportPhase env (i + 1)
      (csvExport (workerJob env.bs i v).data file (env.exportOpenOk i)
        (env.exportFailAt i)).1 rest

/-- The observable end of a run: `aborted` is `log.Fatal` (exit status 1)
with the file as `newCsv` left it; `completed` is `main` returning
normally (exit status 0) with the final file content. -/
inductive RunOutcome
  | aborted (file : List (List String))
  | completed (file : List (List String))
deriving Repr, DecidableEq

/-- The process exit status of a run: `log.Fatal` exits 1, a normal return
from `main` exits 0. -/
def exitCode : RunOutcome → Nat
  | RunOutcome.aborted _ => 1
  | RunOutcome.completed _ => 0

/-- `main` (`hostStats.go:94-145`).  A failed configuration read is logged
and execution continues with the zero-value `Configuration` (`Outpath=""`,
no endpoints).  `newCsv` writes the header (its error, like the header
write's, is ignored).  Then every endpoint's job runs; if any job hits
`log.Fatal` the process dies before the export loop, with only the header
in the file.  Otherwise `main` drains exactly one done signal per endpoint
— `arrival` is the order those identical `true` signals are drained in;
they carry no data, so it cannot influence anything — and then runs the
export loop in configuration order. -/
def runMain (arrival : List Nat) (env : MainEnv) : RunOutcome :=
  let _ := arrival
  let config := env.configRead.getD { Outpath := "", VCenters := [] }
  let file0 := if env.createOk then [Headers] else []
  if (processAll env.bs 0 config.VCenters).any (fun o => o.fatal) then
    RunOutcome.aborted file0
  else
    RunOutcome.completed (exportPhase env 0 file0 config.VCenters)

/-! ### Concrete evaluation data

A stand-in byte renderer and small concrete hosts, endpoints and run
environments used to evaluate the model (witnesses and counterexamples).
`bs0` plays the role of `units.ByteSize.String`: the spec leaves the
byte-count rendering rule open ("a human-readable unit ... the same
rendering rule for every call"), so the flattening is parametric in it and
concrete runs instantiate it with plain base-10 rendering, which is
injective like the library formatter. -/

/-- Concrete byte-size renderer used for evaluation. -/
def bs0 : Int → String := fun n => toString n

/-- A host reporting 2000 MHz × 10 cores = 20000 MHz total CPU, 5000 MHz
used (the spec's §8 test values), 8 GiB total memory and 1024 MB used. -/
def sampleHost : HostSystemData :=
  { clusterName := some "cluster-1"
    hostName := "esx-1"
    build := "12345"
    version := "7.0.3"
    model := "PowerEdge"
    vendor := "Dell"
    cpuMhz := 2000
    numCpuPkgs := 2
    numCpuCores := 10
    numCpuThreads := 20
    cpuModel := "Xeon"
    overallCpuUsage := 5000
    memorySize := 8589934592
    overallMemoryUsage := 1024 }

/-- First healthy host of the collection-failure endpoint. -/
def hostA : HostSystemData :=
  { sampleHost with hostName := "esx-a", clusterName := some "cluster-2" }

/-- Second healthy host of the collection-failure endpoint. -/
def hostB : HostSystemData :=
  { sampleHost with hostName := "esx-b", clusterName := some "cluster-2" }

/-- A host whose parent cluster-name lookup (`pc.RetrieveOne`) fails. -/
def lookupFailHost : HostSystemData :=
  { sampleHost with hostName := "esx-c", clusterName := none }

/-- An endpoint whose connect and collection fully succeed. -/
def sampleVC : VCenterEnv :=
  { Hostname := "vc-good"
    Username := "user"
    Password := "secret"
    connectOk := true
    viewOk := true
    retrieveOk := true
    hosts := [sampleHost]
    logoutErr := none }

/-- A second healthy endpoint with a different host. -/
def vcSecond : VCenterEnv :=
  { sampleVC with Hostname := "vc-good-2", hosts := [hostA] }

/-- An endpoint whose `Connect` fails (bad address / credentials). -/
def badConnVC : VCenterEnv :=
  { sampleVC with Hostname := "vc-unreachable", connectOk := false }

/-- An endpoint that connects, yields two records, then hits a cluster-name
lookup failure on its third host (the spec's §8 CollectionError test). -/
def collectFailVC : VCenterEnv :=
  { sampleVC with
    Hostname := "vc-collect-fail"
    hosts := [hostA, hostB, lookupFailHost] }

/-- A sink that always opens. -/
def allOkOpen : Nat → Bool := fun _ => true

/-- A sink whose row writes never fail. -/
def allOkFail : Nat → Option Nat := fun _ => none

/-- One healthy endpoint. -/
def cfgC2 : Configuration := { Outpath := "stats.csv", VCenters := [sampleVC] }

/-- Run with one healthy endpoint and a healthy sink. -/
def envC2 : MainEnv :=
  { bs := bs0, configRead := some cfgC2, createOk := true,
    exportOpenOk := allOkOpen, exportFailAt := allOkFail }

/-- A collection-failure endpoint followed by a healthy one. -/
def cfgC3 : Configuration :=
  { Outpath := "stats.csv", VCenters := [collectFailVC, sampleVC] }

/-- Run with a collection-failure endpoint followed by a healthy one. -/
def envC3 : MainEnv :=
  { bs := bs0, configRead := some cfgC3, createOk := true,
    exportOpenOk := allOkOpen, exportFailAt := allOkFail }

/-- A healthy endpoint followed by a connect-failure endpoint. -/
def cfgC5 : Configuration :=
  { Outpath := "stats.csv", VCenters := [sampleVC, badConnVC] }

/-- Run with a healthy endpoint followed by a connect-failure endpoint. -/
def envC5 : MainEnv :=
  { bs := bs0, configRead := some cfgC5, createOk := true,
    exportOpenOk := allOkOpen, exportFailAt := allOkFail }

/-- Two healthy endpoints. -/
def cfgC7 : Configuration :=
  { Outpath := "stats.csv", VCenters := [sampleVC, vcSecond] }

/-- Run where the sink open of the first endpoint's `csvExport` call fails
and the second endpoint's succeeds. -/
def envC7 : MainEnv :=
  { bs := bs0, configRead := some cfgC7, createOk := true,
    exportOpenOk := fun i => match i with | 0 => false | _ => true,
    exportFailAt := allOkFail }

/-- Run whose configuration read fails (`os.Open`/`Decode` error). -/
def envC8 : MainEnv :=
  { bs := bs0, configRead := none, createOk := true,
    exportOpenOk := allOkOpen, exportFailAt := allOkFail }

/-- A record whose two memory fields hold different values, so the two
memory columns are rendered differently. -/
def r9 : hostStat :=
  { Cluster := "", Host := "", Version := "", Build := "", Vendor := "",
    Model := "", NumCpuPkgs := 0, NumCpuCores := 0, NumCpuThreads := 0,
    CpuModel := "", TotalCPU := 0, FreeCPU := 0,
    OverallMemoryUsage := 1, MemorySize := 0, FreeMemory := 0 }

end HostStats

namespace HostStats

/-! ### Helper lemmas -/

theorem any_eq_false_of_forall {α : Type} (p : α → Bool) (l : List α)
    (h : ∀ x ∈ l, p x = false) : l.any p = false := by
  induction l with
  | nil => rfl
  | cons a t ih =>
    simp [List.any_cons, h a (List.mem_cons_self a t),
      ih (fun x hx => h x (List.mem_cons_of_mem a hx))]

theorem any_eq_true_of_mem {α : Type} (p : α → Bool) (l : List α) (x : α)
    (hx : x ∈ l) (h : p x = true) : l.any p = true := by
  induction l with
  | nil => cases hx
  | cons a t ih =>
    rcases List.mem_cons.mp hx with rfl | hm
    · simp [List.any_cons, h]
    · simp [List.any_cons, ih hm]

/-- The rows a job accumulates do not depend on which worker ran it. -/
theorem workerJob_data (bs : Int → String) (id : Nat) (v : VCenterEnv) :
    (workerJob bs id v).data = dataOf bs v := by
  unfold dataOf workerJob
  cases Connect v
  · rfl
  · cases Init bs v <;> rfl

/-- Whether a job dies in `log.Fatal` does not depend on the worker id. -/
theorem workerJob_fatal (bs : Int → String) (id : Nat) (v : VCenterEnv) :
    (workerJob bs id v).fatal = jobFatal bs v := by
  unfold jobFatal workerJob
  cases Connect v
  · rfl
  · cases Init bs v <;> rfl

/-- A job sends one done signal unless it dies in `log.Fatal`, in which
case it sends none. -/
theorem workerJob_doneSignals (bs : Int → String) (id : Nat) (v : VCenterEnv) :
    (workerJob bs id v).doneSignals = if jobFatal bs v then 0 else 1 := by
  unfold jobFatal workerJob
  cases Connect v
  · rfl
  · cases Init bs v <;> rfl

theorem mem_processAll (bs : Int → String) {o : JobOutcome}
    (vcs : List VCenterEnv) : ∀ i, o ∈ processAll bs i vcs →
    ∃ id v, v ∈ vcs ∧ o = workerJob bs id v := by
  induction vcs with
  | nil => intro i h; cases h
  | cons v rest ih =>
    intro i h
    cases h with
    | head => exact ⟨i, v, List.mem_cons_self v rest, rfl⟩
    | tail _ h =>
      obtain ⟨id, u, hu, rfl⟩ := ih (i + 1) h
      exact ⟨id, u, List.mem_cons_of_mem v hu, rfl⟩

theorem processAll_any_fatal (bs : Int → String) (vcs : List VCenterEnv) :
    ∀ i, (processAll bs i vcs).any (fun o => o.fatal) = vcs.any (jobFatal bs) := by
  induction vcs with
  | nil => intro i; rfl
  | cons v rest ih =>
    intro i
    simp [processAll, List.any_cons, workerJob_fatal, ih (i + 1)]

theorem processAll_done_sum (bs : Int → String) (vcs : List VCenterEnv)
    (h : ∀ u ∈ vcs, jobFatal bs u = false) : ∀ i,
    ((processAll bs i vcs).map JobOutcome.doneSignals).sum = vcs.length := by
  induction vcs with
  | nil => intro i; rfl
  | cons v rest ih =>
    intro i
    have hv := h v (List.mem_cons_self v rest)
    have hrest : ∀ u ∈ rest, jobFatal bs u = false :=
      fun u hu => h u (List.mem_cons_of_mem v hu)
    simp [processAll, workerJob_doneSignals, hv, ih hrest (i + 1), Nat.add_comm]

/-- With a healthy sink, the export loop appends exactly each endpoint's
own rows, in list order. -/
theorem exportPhase_allOk (env : MainEnv)
    (hopen : ∀ i, env.exportOpenOk i = true)
    (hfail : ∀ i, env.exportFailAt i = none) :
    ∀ (vcs : List VCenterEnv) (i : Nat) (file : List (List String)),
    exportPhase env i file vcs = file ++ (vcs.map (dataOf env.bs)).flatten := by
  intro vcs
  induction vcs with
  | nil => intro i file; simp [exportPhase]
  | cons v rest ih =>
    intro i file
    simp [exportPhase, csvExport, hopen i, hfail i, workerJob_data,
      ih (i + 1), List.append_assoc]

/-- A run whose jobs all avoid `log.Fatal` reaches the export loop. -/
theorem runMain_completed (arrival : List Nat) (env : MainEnv)
    (cfg : Configuration) (hc : env.configRead = some cfg)
    (hnf : ∀ u ∈ cfg.VCenters, jobFatal env.bs u = false) :
    runMain arrival env = RunOutcome.completed
      (exportPhase env 0 (if env.createOk then [Headers] else [])
        cfg.VCenters) := by
  have hany : (processAll env.bs 0 cfg.VCenters).any (fun o => o.fatal) = false := by
    rw [processAll_any_fatal]
    exact any_eq_false_of_forall _ _ hnf
  simp only [runMain, hc, Option.getD_some, hany]
  rfl

/-- One job dying in `log.Fatal` aborts the run before any export, leaving
only what `newCsv` wrote. -/
theorem runMain_aborted (arrival : List Nat) (env : MainEnv)
    (cfg : Configuration) (v : VCenterEnv)
    (hc : env.configRead = some cfg) (hmem : v ∈ cfg.VCenters)
    (hf : jobFatal env.bs v = true) :
    runMain arrival env =
      RunOutcome.aborted (if env.createOk then [Headers] else []) := by
  have hany : (processAll env.bs 0 cfg.VCenters).any (fun o => o.fatal) = true := by
    rw [processAll_any_fatal]
    exact any_eq_true_of_mem _ _ v hmem hf
  simp only [runMain, hc, Option.getD_some, hany]
  rfl

/-! ### Claim theorems -/

/-- C1 (counterexample): the claim says the Record's `MemorySize` field
holds the host's total memory and its `OverallMemoryUsage` field holds the
host's used memory.  On the host reporting 8589934592 bytes total and
1024 MB used, the record built by `Init` holds the *used* megabyte count in
`MemorySize` and the *total* byte count in `OverallMemoryUsage` — the
fields are swapped, under any unit normalization. -/
theorem c1_memory_fields_swapped_cex :
    sampleHost.memorySize = 8589934592 ∧
    sampleHost.overallMemoryUsage = 1024 ∧
    (mkHostStat "cluster-1" sampleHost).MemorySize = 1024 ∧
    (mkHostStat "cluster-1" sampleHost).OverallMemoryUsage = 8589934592 ∧
    ¬ ((mkHostStat "cluster-1" sampleHost).MemorySize = sampleHost.memorySize) ∧
    ¬ ((mkHostStat "cluster-1" sampleHost).OverallMemoryUsage =
          sampleHost.overallMemoryUsage ∨
       (mkHostStat "cluster-1" sampleHost).OverallMemoryUsage =
          sampleHost.overallMemoryUsage * 1024 * 1024) := by
  decide

/-- C1 (amended): for every Record emitted by the Collector, `FreeMemory`
equals the host's total memory in bytes minus the host's used memory
normalized from megabytes to bytes; but the record stores the host's used
memory (in MB) in its `MemorySize` field and the host's total memory (in
bytes) in its `OverallMemoryUsage` field — swapped relative to the field
names — so in terms of the record's own fields the invariant reads
`FreeMemory = OverallMemoryUsage - MemorySize * 1024 * 1024`. -/
theorem c1_memory_free_invariant_amended (c : String) (hs : HostSystemData) :
    (mkHostStat c hs).FreeMemory =
      hs.memorySize - hs.overallMemoryUsage * 1024 * 1024 ∧
    (mkHostStat c hs).MemorySize = hs.overallMemoryUsage ∧
    (mkHostStat c hs).OverallMemoryUsage = hs.memorySize ∧
    (mkHostStat c hs).FreeMemory =
      (mkHostStat c hs).OverallMemoryUsage -
        (mkHostStat c hs).MemorySize * 1024 * 1024 :=
  ⟨rfl, rfl, rfl, rfl⟩

/-- C2: after the completion barrier the rows written to the sink are
exactly the header followed by the concatenation of each endpoint's
collected records in original configuration order — each endpoint's list
kept intact and in order — and the result is identical for any two arrival
orders of the completion signals. -/
theorem c2_merge_order_deterministic (env : MainEnv)
    (arrival other : List Nat) (cfg : Configuration)
    (hc : env.configRead = some cfg)
    (hnf : ∀ u ∈ cfg.VCenters, jobFatal env.bs u = false)
    (hopen : ∀ i, env.exportOpenOk i = true)
    (hfail : ∀ i, env.exportFailAt i = none)
    (hcr : env.createOk = true) :
    runMain arrival env = RunOutcome.completed
      ([Headers] ++ (cfg.VCenters.map (dataOf env.bs)).flatten) ∧
    runMain arrival env = runMain other env := by
  have h1 := runMain_completed arrival env cfg hc hnf
  have h2 := runMain_completed other env cfg hc hnf
  simp only [hcr, if_true] at h1 h2
  rw [exportPhase_allOk env hopen hfail] at h1 h2
  exact ⟨h1, h1.trans h2.symm⟩

/-- C2 (witness): the one-endpoint run exports the header plus that
endpoint's rows, for either arrival order. -/
theorem c2_merge_order_witness :
    runMain [0] envC2 = RunOutcome.completed
      ([Headers] ++ (cfgC2.VCenters.map (dataOf bs0)).flatten) ∧
    runMain [0] envC2 = runMain [] envC2 :=
  c2_merge_order_deterministic envC2 [0] [] cfgC2 rfl (by decide)
    (fun _ => rfl) (fun _ => rfl) rfl

/-- C3 (counterexample): endpoint 0 connects and suffers a cluster-name
lookup failure on its third host.  The claim predicts: partial records
discarded but the session proceeds to disconnect, and every other
endpoint's rows are unaffected.  In fact `Init` calls `log.Fatal`: no
disconnect happens, the process dies with only the header written, and the
healthy endpoint 1's (non-empty) rows never reach the sink. -/
theorem c3_collection_error_cex :
    Init bs0 collectFailVC = InitResult.fatal ∧
    (workerJob bs0 0 collectFailVC).disconnected = false ∧
    dataOf bs0 sampleVC ≠ [] ∧
    runMain [0, 1] envC3 = RunOutcome.aborted [Headers] ∧
    ¬ (∃ f, runMain [0, 1] envC3 = RunOutcome.completed f ∧
        ∀ r ∈ dataOf bs0 sampleVC, r ∈ f) := by
  refine ⟨by decide, by decide, by decide, by decide, ?_⟩
  rintro ⟨f, hf, -⟩
  have h : runMain [0, 1] envC3 = RunOutcome.aborted [Headers] := by decide
  rw [h] at hf
  exact RunOutcome.noConfusion hf

/-- C3 (amended): if the Collector fails while enumerating hosts or
resolving a cluster name for one endpoint, `Init` calls `log.Fatal`: the
whole process terminates with only the header in the sink, that endpoint's
job never disconnects and never signals completion, no retry occurs, and —
far from being unaffected — every other endpoint's rows are lost too,
because the run dies before the export phase. -/
theorem c3_collection_error_amended (env : MainEnv) (arrival : List Nat)
    (cfg : Configuration) (v : VCenterEnv) (id : Nat)
    (hc : env.configRead = some cfg) (hmem : v ∈ cfg.VCenters)
    (hconn : v.connectOk = true)
    (hinit : Init env.bs v = InitResult.fatal) :
    runMain arrival env =
      RunOutcome.aborted (if env.createOk then [Headers] else []) ∧
    dataOf env.bs v = [] ∧
    (workerJob env.bs id v).doneSignals = 0 ∧
    (workerJob env.bs id v).disconnected = false := by
  have hf : jobFatal env.bs v = true := by
    simp [jobFatal, workerJob, Connect, hconn, hinit]
  refine ⟨runMain_aborted arrival env cfg v hc hmem hf, ?_, ?_, ?_⟩
  · simp [dataOf, workerJob, Connect, hconn, hinit]
  · simp [workerJob, Connect, hconn, hinit]
  · simp [workerJob, Connect, hconn, hinit]

/-- C3 (witness): the two-endpoint run with a collection failure on the
first endpoint aborts with only the header written; the failing job sends
no completion signal and never disconnects. -/
theorem c3_collection_error_witness :
    runMain [0, 1] envC3 =
      RunOutcome.aborted (if envC3.createOk then [Headers] else []) ∧
    dataOf bs0 collectFailVC = [] ∧
    (workerJob bs0 0 collectFailVC).doneSignals = 0 ∧
    (workerJob bs0 0 collectFailVC).disconnected = false :=
  c3_collection_error_amended envC3 [0, 1] cfgC3 collectFailVC 0 rfl
    (by decide) rfl (by decide)

/-- C4 (counterexample): the claim says each dispatched job signals
completion exactly once whether it ends in the Failed or the Closed
terminal state.  A job that fails during collection (Failed via
CollectionError) sends zero signals — `log.Fatal` kills the process before
`done <- true` — so with one such job among two, the coordinator can only
ever receive one signal, not two. -/
theorem c4_completion_signals_cex :
    (workerJob bs0 0 collectFailVC).fatal = true ∧
    ¬ ((workerJob bs0 0 collectFailVC).doneSignals = 1) ∧
    ((processAll bs0 0 [collectFailVC, sampleVC]).map
        JobOutcome.doneSignals).sum = 1 ∧
    ¬ (((processAll bs0 0 [collectFailVC, sampleVC]).map
        JobOutcome.doneSignals).sum = 2) := by
  decide

/-- C4 (amended): every job that does not die in `log.Fatal` during
collection signals completion exactly once — both when `Connect` fails and
when it closes normally — and when no job dies, the coordinator receives
exactly N completion signals for N endpoints and the run proceeds to the
export phase; a collection failure instead aborts the process with no
signal and no export. -/
theorem c4_completion_signals_amended (bs : Int → String)
    (vcs : List VCenterEnv)
    (h : ∀ u ∈ vcs, jobFatal bs u = false) :
    (∀ o ∈ processAll bs 0 vcs, o.doneSignals = 1) ∧
    ((processAll bs 0 vcs).map JobOutcome.doneSignals).sum = vcs.length ∧
    (∀ (arrival : List Nat) (env : MainEnv) (cfg : Configuration),
      env.bs = bs → env.configRead = some cfg → cfg.VCenters = vcs →
      ∃ f, runMain arrival env = RunOutcome.completed f) := by
  refine ⟨?_, processAll_done_sum bs vcs h 0, ?_⟩
  · intro o ho
    obtain ⟨id, u, hu, rfl⟩ := mem_processAll bs vcs 0 ho
    rw [workerJob_doneSignals, h u hu]
    rfl
  · intro arrival env cfg hbs hc hv
    refine ⟨_, runMain_completed arrival env cfg hc ?_⟩
    intro u hu
    rw [hv] at hu
    rw [hbs]
    exact h u hu

/-- C4 (witness): the healthy one-endpoint run produces exactly one
completion signal and reaches the export phase. -/
theorem c4_completion_signals_witness :
    ((processAll bs0 0 [sampleVC]).map JobOutcome.doneSignals).sum = 1 ∧
    (∃ f, runMain [0] envC2 = RunOutcome.completed f) :=
  ⟨(c4_completion_signals_amended bs0 [sampleVC] (by decide)).2.1,
   (c4_completion_signals_amended bs0 [sampleVC] (by decide)).2.2
     [0] envC2 cfgC2 rfl rfl rfl⟩

/-- C5: a `ConnectionError` on one endpoint makes that endpoint contribute
exactly zero rows, is logged with the endpoint's hostname, never invokes
`Init` (the Collecting phase), still signals completion once, and leaves
every other endpoint's rows exactly as they would be on their own: the
exported file is the header plus the surrounding endpoints' own rows in
configuration order, with nothing from the failed endpoint. -/
theorem c5_connection_error_isolated (env : MainEnv) (arrival : List Nat)
    (cfg : Configuration) (pre post : List VCenterEnv) (v : VCenterEnv)
    (id : Nat)
    (hc : env.configRead = some cfg)
    (hsplit : cfg.VCenters = pre ++ v :: post)
    (hconn : v.connectOk = false)
    (hnf : ∀ u ∈ pre ++ post, jobFatal env.bs u = false)
    (hopen : ∀ i, env.exportOpenOk i = true)
    (hfail : ∀ i, env.exportFailAt i = none)
    (hcr : env.createOk = true) :
    (workerJob env.bs id v).data = [] ∧
    (workerJob env.bs id v).initCalled = false ∧
    (workerJob env.bs id v).doneSignals = 1 ∧
    (workerJob env.bs id v).fatal = false ∧
    LogEvent.connectFailed id v.Hostname ∈ (workerJob env.bs id v).logs ∧
    runMain arrival env = RunOutcome.completed
      ([Headers] ++ ((pre.map (dataOf env.bs)).flatten ++
        (post.map (dataOf env.bs)).flatten)) := by
  have hfatv : jobFatal env.bs v = false := by
    simp [jobFatal, workerJob, Connect, hconn]
  have hdv : dataOf env.bs v = [] := by
    simp [dataOf, workerJob, Connect, hconn]
  have hnf' : ∀ u ∈ cfg.VCenters, jobFatal env.bs u = false := by
    rw [hsplit]
    intro u hu
    rcases List.mem_append.mp hu with hp | hvp
    · exact hnf u (List.mem_append.mpr (Or.inl hp))
    · rcases List.mem_cons.mp hvp with rfl | hq
      · exact hfatv
      · exact hnf u (List.mem_append.mpr (Or.inr hq))
  have h1 := runMain_completed arrival env cfg hc hnf'
  simp only [hcr, if_true] at h1
  rw [exportPhase_allOk env hopen hfail, hsplit] at h1
  simp only [List.map_append, List.map_cons, List.flatten_append,
    List.flatten_cons, hdv, List.nil_append] at h1
  refine ⟨?_, ?_, ?_, ?_, ?_, h1⟩
  · simp [workerJob, Connect, hconn]
  · simp [workerJob, Connect, hconn]
  · simp [workerJob, Connect, hconn]
  · simp [workerJob, Connect, hconn]
  · simp [workerJob, Connect, hconn]

/-- C5 (witness): with a healthy endpoint followed by an unreachable one,
the failed endpoint contributes nothing, logs its hostname, never reaches
Collecting, and the file holds the header plus the healthy endpoint's
rows. -/
theorem c5_connection_error_witness :
    (workerJob bs0 1 badConnVC).data = [] ∧
    (workerJob bs0 1 badConnVC).initCalled = false ∧
    (workerJob bs0 1 badConnVC).doneSignals = 1 ∧
    (workerJob bs0 1 badConnVC).fatal = false ∧
    LogEvent.connectFailed 1 badConnVC.Hostname ∈
      (workerJob bs0 1 badConnVC).logs ∧
    runMain [1, 0] envC5 = RunOutcome.completed
      ([Headers] ++ (([sampleVC].map (dataOf bs0)).flatten ++
        (([] : List VCenterEnv).map (dataOf bs0)).flatten)) :=
  c5_connection_error_isolated envC5 [1, 0] cfgC5 [sampleVC] [] badConnVC 1
    rfl rfl rfl (by decide) (fun _ => rfl) (fun _ => rfl) rfl

/-- C6: for every Record emitted by the Collector, `FreeCPU` equals
`TotalCPU` minus the host's overall CPU usage, exactly, with `TotalCPU`
the host's CpuMhz times its core count; on the spec's test host,
total 20000 MHz and usage 5000 MHz give 15000 MHz free. -/
theorem c6_free_cpu_invariant (c : String) (hs : HostSystemData) :
    (mkHostStat c hs).TotalCPU = hs.cpuMhz * hs.numCpuCores ∧
    (mkHostStat c hs).FreeCPU =
      (mkHostStat c hs).TotalCPU - hs.overallCpuUsage ∧
    (mkHostStat "cluster-1" sampleHost).TotalCPU = 20000 ∧
    (mkHostStat "cluster-1" sampleHost).FreeCPU = 15000 :=
  ⟨rfl, rfl, by decide, by decide⟩

/-- C7 (counterexample): the claim says a sink write failure is surfaced
to the operator as a fatal condition for the run.  With the first
endpoint's `csvExport` open failing, `main` discards the returned error:
the run continues, still appends the second endpoint's rows, completes
normally and exits 0 — nothing fatal, nothing surfaced. -/
theorem c7_sink_error_cex :
    envC7.exportOpenOk 0 = false ∧
    dataOf bs0 sampleVC ≠ [] ∧
    runMain [0, 1] envC7 = RunOutcome.completed
      ([Headers] ++ dataOf bs0 vcSecond) ∧
    exitCode (runMain [0, 1] envC7) = 0 := by
  decide

/-- C7 (amended): `csvExport` reports a sink failure only through its
return value, which `main` ignores: the run always completes with exit
status 0 (absent a collection `log.Fatal`), and rows already in the file
are never removed — a failing call leaves the prior file content as a
prefix of the result (no rollback). -/
theorem c7_sink_error_amended (data file : List (List String))
    (openOk : Bool) (failAt : Option Nat) (arrival : List Nat)
    (env : MainEnv) (cfg : Configuration)
    (hc : env.configRead = some cfg)
    (hnf : ∀ u ∈ cfg.VCenters, jobFatal env.bs u = false) :
    (∃ tail, (csvExport data file openOk failAt).1 = file ++ tail) ∧
    (∃ f, runMain arrival env = RunOutcome.completed f) ∧
    exitCode (runMain arrival env) = 0 := by
  refine ⟨?_, ⟨_, runMain_completed arrival env cfg hc hnf⟩, ?_⟩
  · unfold csvExport
    cases openOk
    · exact ⟨[], by simp⟩
    · cases failAt with
      | none => exact ⟨data, rfl⟩
      | some k =>
        by_cases hk : k < data.length
        · exact ⟨data.take k, by simp [hk]⟩
        · exact ⟨data, by simp [hk]⟩
  · rw [runMain_completed arrival env cfg hc hnf]
    rfl

/-- C7 (witness): a failed open leaves the file exactly as it was, and the
two-endpoint run with a failing first export still completes with exit
status 0. -/
theorem c7_sink_error_witness :
    (∃ tail, (csvExport [["row"]] [Headers] false none).1 =
      [Headers] ++ tail) ∧
    (∃ f, runMain [0, 1] envC7 = RunOutcome.completed f) ∧
    exitCode (runMain [0, 1] envC7) = 0 :=
  c7_sink_error_amended [["row"]] [Headers] false none [0, 1] envC7 cfgC7
    rfl (by decide)

/-- C8 (code defect, evaluated): when the configuration cannot be read,
`main` only prints a message and continues with the zero-value
`Configuration`: it still creates the header file, runs an empty export
loop, prints the success summary and returns — exit status 0, no abort —
whereas the claim (and the spec's stated intent) requires aborting with a
non-zero exit status before any connection attempt. -/
theorem c8_config_error_behavior :
    runMain [] envC8 = RunOutcome.completed [Headers] ∧
    exitCode (runMain [] envC8) = 0 ∧
    (envC8.configRead.getD { Outpath := "", VCenters := [] }).VCenters
      = [] := by
  decide

/-- C9 (counterexample): the claim says the i-th header names the field
whose rendered value appears at position i of the flattened row.  On a
record with `MemorySize = 0` and `OverallMemoryUsage = 1`, position 12 of
`Slice` holds the rendering of the `MemorySize` field while `Headers` at
position 12 reads `OverallMemoryUsage`: the flattening does not follow the
header (struct declaration) order. -/
theorem c9_schema_cex :
    (Slice bs0 r9).length = Headers.length ∧
    ¬ (Slice bs0 r9 = sliceInHeaderOrder bs0 r9) ∧
    (Slice bs0 r9).get? 12 = some (bs0 (r9.MemorySize * 1024 * 1024)) ∧
    Headers.get? 12 = some "OverallMemoryUsage" := by
  decide

/-- C9 (amended): `Headers` and `Slice` always have equal length (15), and
the i-th header names the field rendered at position i for every position
except 12 and 13: there `Slice` transposes the `OverallMemoryUsage` and
`MemorySize` columns relative to the header order, rendering the
`MemorySize` field at position 12 and the `OverallMemoryUsage` field at
position 13. -/
theorem c9_schema_amended (bs : Int → String) (r : hostStat) :
    (Slice bs r).length = Headers.length ∧
    (Slice bs r).take 12 = (sliceInHeaderOrder bs r).take 12 ∧
    (Slice bs r).get? 12 = (sliceInHeaderOrder bs r).get? 13 ∧
    (Slice bs r).get? 13 = (sliceInHeaderOrder bs r).get? 12 ∧
    (Slice bs r).get? 14 = (sliceInHeaderOrder bs r).get? 14 :=
  ⟨rfl, rfl, rfl, rfl, rfl⟩

/-- C10: calling `Disconnect` on a `VCenter` whose session handle was
never established (client is nil) performs no logout attempt and returns
nil, whatever a logout would have produced. -/
theorem c10_disconnect_nil_client (logoutErr : Option String)
    (host : String) (id : Nat) :
    Disconnect logoutErr { Hostname := host, Worker := id, client := none }
      = (false, none) :=
  rfl

end HostStats
